import Mathlib

/-!
Shallow embedding of the screen-capture MCP server (src/tools.ts, src/index.ts).

Modelling conventions:
* Byte buffers (Node `Buffer`) are `List Nat`.
* The external collaborators (the `screenshot-desktop` primitive, `sharp`
  encoders, `osascript` execution, the `screencapture` command, `tesseract.js`
  worker creation and recognition, `fs.mkdir`, and reads of files this process
  did not write) are oracles collected in an `Env` record; each fallible call
  returns `Except String α` carrying the JS error message.
* The observable effects of one request are threaded explicitly through a `Sys`
  state: an association list for the files written by this process (most
  recent write first), a chronological event trace recording every attempted
  I/O call, and a clock counting `new Date()` calls (so the `isoNow` oracle
  yields the timestamp of each call in order).
* A function translated from an `async` TS function takes `Env` and a starting
  `Sys` and returns `Except String α × Sys`: thrown JS errors become
  `Except.error msg` while the effects performed before the throw stay in the
  returned state (mirroring that JS exceptions do not roll back I/O).
* `fs.writeFile` is modelled as always succeeding; the `screencapture` command
  is modelled as either failing (non-zero exit) or succeeding and writing the
  bytes the oracle returns at the requested path.
-/

/-- Byte buffers (Node `Buffer` contents). -/
abbrev Bytes := List Nat

/-- The two output formats of the capture tools: "png" and "jpg". -/
inductive ImageFormat
  | png
  | jpg
  deriving DecidableEq, Repr

/-- The string used both as the extension and in MIME types for a format. -/
def ImageFormat.ext : ImageFormat → String
  | .png => "png"
  | .jpg => "jpg"

/-- One attempted I/O call, recorded in the chronological event trace. -/
inductive Event
  | mkdirEv
  | screenshotEv (display : Nat) (fmt : ImageFormat)
  | encodePngEv
  | encodeJpgEv
  | ocrPreprocessEv
  | writeFileEv (path : String)
  | readFileEv (path : String)
  | osaExecEv (script : String)
  | settleEv
  | screencaptureEv (path : String)
  | workerCreatedEv (language : String)
  | workerTerminatedEv
  | recognizeEv
  deriving DecidableEq, Repr

/-- Observable state of one run: files written, event trace, clock. -/
structure Sys where
  fs : List (String × Bytes)
  events : List Event
  clock : Nat
  deriving DecidableEq, Repr

/-- Oracles for the external collaborators. -/
structure Env where
  screenshotPrim : Nat → ImageFormat → Except String Bytes
  sharpPng : Bytes → Except String Bytes
  sharpJpeg : Bytes → Except String Bytes
  sharpOcr : Bytes → Except String Bytes
  mkdirResult : Except String Unit
  homedir : String
  isoNow : Nat → String
  osaExec : String → Except String String
  screencaptureRun : String → Except String Bytes
  createWorkerRes : String → Except String Nat
  recognize : Nat → Bytes → Except String String
  osRead : String → Except String Bytes

/-- Append one event to the trace. -/
def emit (s : Sys) (e : Event) : Sys :=
  { s with events := s.events ++ [e] }

/-- Model of `fs.writeFile` (records the write event and the file content). -/
def fsWriteFile (s : Sys) (p : String) (b : Bytes) : Sys :=
  { s with fs := (p, b) :: s.fs, events := s.events ++ [Event.writeFileEv p] }

/-- A file write performed by an external command (no `fs.writeFile` event). -/
def fsPut (s : Sys) (p : String) (b : Bytes) : Sys :=
  { s with fs := (p, b) :: s.fs }

/-- Model of `fs.readFile`: files written in this run are read back; other
paths are answered by the `osRead` oracle. -/
def fsRead (env : Env) (s : Sys) (p : String) : Except String Bytes :=
  match List.lookup p s.fs with
  | some b => Except.ok b
  | none => env.osRead p

/-- Model of `path.join` for the two-component joins used by the code. -/
def pathJoin (a b : String) : String :=
  a ++ "/" ++ b

/-- JS string truthiness for optional string parameters: `undefined` and the
empty string are falsy, every other string is truthy. -/
def truthyStr : Option String → Bool
  | none => false
  | some v => !(v = "")

/-- `v || d` on JS strings: the default is used when `v` is absent or empty. -/
def jsOrStr (o : Option String) (d : String) : String :=
  match o with
  | some v => if v = "" then d else v
  | none => d

/-- The character substitution of `toISOString().replace(/[:.]/g, "-")`. -/
def sanitizeChar (c : Char) : Char :=
  if c = ':' ∨ c = '.' then '-' else c

/-- `new Date().toISOString().replace(/[:.]/g, "-")` applied to a raw
ISO timestamp string. -/
def sanitizeTimestamp (ts : String) : String :=
  String.mk (ts.data.map sanitizeChar)

/-- One `new Date()` call: consumes the next clock tick. -/
def freshTimestamp (env : Env) (s : Sys) : String × Sys :=
  (sanitizeTimestamp (env.isoNow s.clock), { s with clock := s.clock + 1 })

/-- The base64 alphabet used by Node `Buffer.toString("base64")`. -/
def b64Alphabet : List Char :=
  [ 'A', 'B', 'C', 'D', 'E', 'F', 'G', 'H', 'I', 'J', 'K', 'L', 'M',
    'N', 'O', 'P', 'Q', 'R', 'S', 'T', 'U', 'V', 'W', 'X', 'Y', 'Z',
    'a', 'b', 'c', 'd', 'e', 'f', 'g', 'h', 'i', 'j', 'k', 'l', 'm',
    'n', 'o', 'p', 'q', 'r', 's', 't', 'u', 'v', 'w', 'x', 'y', 'z',
    '0', '1', '2', '3', '4', '5', '6', '7', '8', '9', '+', '/' ]

/-- Base64 digit for a 6-bit value. -/
def b64Char (n : Nat) : Char :=
  b64Alphabet.getD n '='

/-- Node `Buffer.toString("base64")` (standard alphabet, `=` padding). -/
def base64Encode : Bytes → List Char
  | [] => []
  | [a] =>
    let a := a % 256
    [b64Char (a / 4), b64Char (a % 4 * 16), '=', '=']
  | [a, b] =>
    let a := a % 256
    let b := b % 256
    [b64Char (a / 4), b64Char (a % 4 * 16 + b / 16), b64Char (b % 16 * 4), '=']
  | a :: b :: c :: rest =>
    let a := a % 256
    let b := b % 256
    let c := c % 256
    b64Char (a / 4) :: b64Char (a % 4 * 16 + b / 16) ::
      b64Char (b % 16 * 4 + c / 64) :: b64Char (c % 64) :: base64Encode rest

/-- JS whitespace for `String.prototype.trim` (the characters relevant to this
code base: space, tab, line feed, carriage return, vertical tab, form feed,
no-break space). -/
def isJsWs (c : Char) : Bool :=
  c = ' ' ∨ c = '\t' ∨ c = '\n' ∨ c = '\r' ∨
    c = Char.ofNat 11 ∨ c = Char.ofNat 12 ∨ c = Char.ofNat 160

/-- Remove trailing whitespace. -/
def trimRightChars (l : List Char) : List Char :=
  (l.reverse.dropWhile isJsWs).reverse

/-- JS `String.prototype.trim` on the underlying character list. -/
def jsTrimChars (l : List Char) : List Char :=
  (trimRightChars l).dropWhile isJsWs

/-- JS `String.prototype.trim`. -/
def jsTrim (s : String) : String :=
  String.mk (jsTrimChars s.data)

/-- JS `"…".split(", ")` (the only separator this code splits on),
specialized so that every recursion is structural. -/
def splitCommaSpace : List Char → List Char → List (List Char)
  | [], acc => [acc.reverse]
  | [c], acc => [(c :: acc).reverse]
  | c₁ :: c₂ :: rest, acc =>
    if c₁ = ',' ∧ c₂ = ' ' then acc.reverse :: splitCommaSpace rest []
    else splitCommaSpace (c₂ :: rest) (c₁ :: acc)

/-- The return type of the capture operations (`ScreenshotResult` in
src/tools.ts). -/
structure ScreenshotResult where
  path : String
  base64 : String
  buffer : Bytes
  deriving DecidableEq, Repr

/-- The options record of `captureScreen` in src/tools.ts. -/
structure CaptureOptions where
  display : Nat := 0
  fmt : ImageFormat := .png
  applicationName : Option String := none

/-- `ApplicationInfo` in src/tools.ts (`bundleId` is never set and omitted). -/
structure ApplicationInfo where
  name : String
  pid : Nat
  deriving DecidableEq, Repr

/-- Error wrapper of `captureScreen`. -/
def wrapCaptureErr (e : String) : String :=
  "Failed to capture screen: " ++ e

/-- Error wrapper of `captureApplicationScreen`. -/
def wrapAppErr (e : String) : String :=
  "Failed to capture application screen: " ++ e

/-- Error wrapper of `extractTextFromImage`. -/
def wrapOcrErr (e : String) : String :=
  "Failed to extract text from image: " ++ e

/-- Error wrapper of `createScreenshotsFolder`. -/
def wrapFolderErr (e : String) : String :=
  "Failed to create screenshots folder: " ++ e

/-- Error wrapper of `getRunningApplications`. -/
def wrapAppsErr (e : String) : String :=
  "Failed to get running applications: " ++ e

/-- The fixed screenshots directory: `path.join(path.join(os.homedir(),
"Desktop"), "mcp-screenshots")`. -/
def screenshotsFolderPath (env : Env) : String :=
  pathJoin (pathJoin env.homedir "Desktop") "mcp-screenshots"

/-- `createScreenshotsFolder` from src/tools.ts: `fs.mkdir(folder,
recursive)` and return the folder path, wrapping a failure. -/
def createScreenshotsFolder (env : Env) (s : Sys) :
    Except String String × Sys :=
  let s := emit s Event.mkdirEv
  match env.mkdirResult with
  | .ok _ => (.ok (screenshotsFolderPath env), s)
  | .error e => (.error (wrapFolderErr e), s)

/-- Encode with sharp into the requested output format: the
`format === "jpg" ? jpeg(quality 90) : png()` branch of src/tools.ts. -/
def encodeFormat (env : Env) (fmt : ImageFormat) (buf : Bytes) (s : Sys) :
    Except String Bytes × Sys :=
  match fmt with
  | .jpg => (env.sharpJpeg buf, emit s Event.encodeJpgEv)
  | .png => (env.sharpPng buf, emit s Event.encodePngEv)

/-- The full-screen branch of `captureScreen` (src/tools.ts lines 32–69):
screenshot primitive, sharp encode, folder creation, timestamped filename,
file write, base64. All errors are wrapped as "Failed to capture screen". -/
def captureFullScreen (env : Env) (display : Nat) (fmt : ImageFormat)
    (s : Sys) : Except String ScreenshotResult × Sys :=
  let s := emit s (Event.screenshotEv display fmt)
  match env.screenshotPrim display fmt with
  | .error e => (.error (wrapCaptureErr e), s)
  | .ok imageBuffer =>
    match encodeFormat env fmt imageBuffer s with
    | (.error e, s) => (.error (wrapCaptureErr e), s)
    | (.ok processedBuffer, s) =>
      match createScreenshotsFolder env s with
      | (.error e, s) => (.error (wrapCaptureErr e), s)
      | (.ok screenshotsFolder, s) =>
        let ts := freshTimestamp env s
        let timestamp := ts.1
        let s := ts.2
        let filename :=
          "screenshot-display-" ++ toString display ++ "-" ++ timestamp ++
            "." ++ fmt.ext
        let filepath := pathJoin screenshotsFolder filename
        let s := fsWriteFile s filepath processedBuffer
        (.ok ⟨filepath, String.mk (base64Encode processedBuffer),
              processedBuffer⟩, s)

/-- The osascript source built by `captureApplicationScreen` (activation of
the named application plus the window-count verification whose boolean result
is printed on stdout). -/
def activateVerifyScript (name : String) : String :=
  "tell application \x22" ++ name ++ "\x22\n  activate\nend tell\n" ++
  "tell application \x22System Events\x22\n  tell process \x22" ++ name ++
  "\x22\n    set frontmost to true\n    set windowList to every window\n" ++
  "    if (count of windowList) > 0 then\n" ++
  "      set frontWindow to item 1 of windowList\n      return true\n" ++
  "    else\n      return false\n    end if\n  end tell\nend tell"

/-- The inner-catch fallback of `captureApplicationScreen`: `return await
captureScreen(display 0, format)` — which takes the full-screen branch since
no application name is passed — with the outer catch wrapping an error of the
fallback itself as "Failed to capture application screen". -/
def appFallback (env : Env) (fmt : ImageFormat) (s : Sys) :
    Except String ScreenshotResult × Sys :=
  match captureFullScreen env 0 fmt s with
  | (.ok r, s) => (.ok r, s)
  | (.error e, s) => (.error (wrapAppErr e), s)

/-- `captureApplicationScreen` from src/tools.ts: folder creation, app-named
timestamped filename, one osascript call for activation and window
verification (its stdout — the true/false window report — is not inspected),
a settle delay, the window-scoped `screencapture` command writing to the
app-named path, read-back, sharp re-encode, write-back. Only a *failing*
osascript or `screencapture` execution triggers the full-screen fallback;
every other error is wrapped as "Failed to capture application screen". -/
def captureApplicationScreen (env : Env) (applicationName : String)
    (fmt : ImageFormat) (s : Sys) : Except String ScreenshotResult × Sys :=
  match createScreenshotsFolder env s with
  | (.error e, s) => (.error (wrapAppErr e), s)
  | (.ok screenshotsFolder, s) =>
    let ts := freshTimestamp env s
    let timestamp := ts.1
    let s := ts.2
    let filename := applicationName ++ "-" ++ timestamp ++ "." ++ fmt.ext
    let filepath := pathJoin screenshotsFolder filename
    let s := emit s (Event.osaExecEv (activateVerifyScript applicationName))
    match env.osaExec (activateVerifyScript applicationName) with
    | .error _ => appFallback env fmt s
    | .ok _ =>
      let s := emit s Event.settleEv
      let s := emit s (Event.screencaptureEv filepath)
      match env.screencaptureRun filepath with
      | .error _ => appFallback env fmt s
      | .ok captured =>
        let s := fsPut s filepath captured
        let s := emit s (Event.readFileEv filepath)
        match fsRead env s filepath with
        | .error e => (.error (wrapAppErr e), s)
        | .ok imageBuffer =>
          match encodeFormat env fmt imageBuffer s with
          | (.error e, s) => (.error (wrapAppErr e), s)
          | (.ok processedBuffer, s) =>
            let s := fsWriteFile s filepath processedBuffer
            (.ok ⟨filepath, String.mk (base64Encode processedBuffer),
                  processedBuffer⟩, s)

/-- `captureScreen` from src/tools.ts: `if (applicationName)` — JS truthiness,
so an absent or empty name takes the full-screen branch — delegates to
`captureApplicationScreen`, otherwise captures the requested display. -/
def captureScreen (env : Env) (opts : CaptureOptions) (s : Sys) :
    Except String ScreenshotResult × Sys :=
  match opts.applicationName with
  | some name =>
    if name = "" then captureFullScreen env opts.display opts.fmt s
    else captureApplicationScreen env name opts.fmt s
  | none => captureFullScreen env opts.display opts.fmt s

/-- The image argument of `extractTextFromImage`: a file path or a buffer. -/
inductive ImageInput
  | path (p : String)
  | buffer (b : Bytes)

/-- The straight-line tail of `extractTextFromImage`'s try block once the
image buffer is at hand: sharp preprocessing (greyscale, normalize, sharpen),
recognition, `text.trim()`; errors wrapped as "Failed to extract text". -/
def extractCore (env : Env) (worker : Nat) (imageBuffer : Bytes) (s : Sys) :
    Except String String × Sys :=
  let s := emit s Event.ocrPreprocessEv
  match env.sharpOcr imageBuffer with
  | .error e => (Except.error (wrapOcrErr e), s)
  | .ok processedImage =>
    let s := emit s Event.recognizeEv
    match env.recognize worker processedImage with
    | .error e => (Except.error (wrapOcrErr e), s)
    | .ok text => (Except.ok (jsTrim text), s)

/-- The try-block body of `extractTextFromImage` after worker creation: the
`typeof input === "string"` file read when the input is a path, then
`extractCore`. -/
def extractBody (env : Env) (worker : Nat) (input : ImageInput) (s : Sys) :
    Except String String × Sys :=
  match input with
  | .path p =>
    let s := emit s (Event.readFileEv p)
    match fsRead env s p with
    | .error e => (.error (wrapOcrErr e), s)
    | .ok imageBuffer => extractCore env worker imageBuffer s
  | .buffer b => extractCore env worker b s

/-- `extractTextFromImage` from src/tools.ts: `createWorker(language)` (its
rejection propagates unwrapped, before the try), then the try body, and the
`finally` clause terminating the worker on every exit path of the try. -/
def extractTextFromImage (env : Env) (input : ImageInput) (language : String)
    (s : Sys) : Except String String × Sys :=
  let s := emit s (Event.workerCreatedEv language)
  match env.createWorkerRes language with
  | .error e => (.error e, s)
  | .ok worker =>
    match extractBody env worker input s with
    | (r, s) => (r, emit s Event.workerTerminatedEv)

/-- Options of `captureScreenAndExtractText` (no output-format parameter). -/
structure CombinedOptions where
  display : Nat := 0
  language : String := "eng"
  applicationName : Option String := none

/-- `captureScreenAndExtractText` from src/tools.ts: capture with the format
pinned to `"png"`, then OCR on the returned buffer. -/
def captureScreenAndExtractText (env : Env) (opts : CombinedOptions)
    (s : Sys) : Except String (String × ScreenshotResult) × Sys :=
  match captureScreen env ⟨opts.display, .png, opts.applicationName⟩ s with
  | (.error e, s) => (.error e, s)
  | (.ok shot, s) =>
    match extractTextFromImage env (.buffer shot.buffer) opts.language s with
    | (.error e, s) => (.error e, s)
    | (.ok text, s) => (.ok (text, shot), s)

/-- The osascript source built by `getRunningApplications` (the list of
foreground-capable process names, printed comma-separated). -/
def listAppsScript : String :=
  "tell application \x22System Events\x22\n  set appList to \x7b\x7d\n" ++
  "  repeat with proc in (every process whose background only is false)\n" ++
  "    set appList to appList & \x7bname of proc as string\x7d\n" ++
  "  end repeat\n  return appList\nend tell"

/-- The stdout parsing of `getRunningApplications`:
`stdout.trim().split(", ").map(name => name.trim())`. -/
def parseAppNames (stdout : String) : List String :=
  (splitCommaSpace (jsTrimChars stdout.data) []).map
    (fun cs => String.mk (jsTrimChars cs))

/-- `getRunningApplications` from src/tools.ts: run the osascript, parse the
comma-separated names, and pair each name with its position as the
placeholder `pid`. -/
def getRunningApplications (env : Env) (s : Sys) :
    Except String (List ApplicationInfo) × Sys :=
  let s := emit s (Event.osaExecEv listAppsScript)
  match env.osaExec listAppsScript with
  | .error e => (.error (wrapAppsErr e), s)
  | .ok stdout =>
    (.ok ((parseAppNames stdout).enum.map (fun p => ⟨p.2, p.1⟩)), s)

/-- The (optional) arguments of a tool invocation, as read from
`request.params.arguments` in src/index.ts. -/
structure ToolArgs where
  display : Option Nat := none
  fmt : Option ImageFormat := none
  applicationName : Option String := none
  imagePath : Option String := none
  language : Option String := none

/-- One item of a tool response's `content` array. -/
inductive ContentItem
  | text (t : String)
  | image (data : String) (mimeType : String)
  deriving DecidableEq, Repr

/-- A tool response: content items plus the `isError` flag. -/
structure ToolResponse where
  content : List ContentItem
  isErrorFlag : Bool
  deriving DecidableEq, Repr

/-- The try-block of the `CallToolRequestSchema` handler in src/index.ts: the
switch over tool names, producing either the content items of a success
response or the message of the thrown error. -/
def callTool (env : Env) (name : String) (args : ToolArgs) (s : Sys) :
    Except String (List ContentItem) × Sys :=
  if name = "capture_screen" then
    let display := args.display.getD 0
    let fmt := args.fmt.getD .png
    match captureScreen env ⟨display, fmt, none⟩ s with
    | (.error e, s) => (.error e, s)
    | (.ok result, s) =>
      (.ok
        [ .text ("Screenshot captured successfully!\nPath: " ++ result.path ++
            "\nFormat: " ++ fmt.ext ++ "\nDisplay: " ++ toString display),
          .image result.base64 ("image/" ++ fmt.ext)], s)
  else if name = "capture_application_screen" then
    if truthyStr args.applicationName = false then
      (.error "applicationName is required", s)
    else
      let applicationName := args.applicationName.getD ""
      let fmt := args.fmt.getD .png
      match captureApplicationScreen env applicationName fmt s with
      | (.error e, s) => (.error e, s)
      | (.ok result, s) =>
        (.ok
          [ .text ("Application screenshot captured successfully!\nApp: " ++
              applicationName ++ "\nPath: " ++ result.path ++ "\nFormat: " ++
              fmt.ext),
            .image result.base64 ("image/" ++ fmt.ext)], s)
  else if name = "list_applications" then
    match getRunningApplications env s with
    | (.error e, s) => (.error e, s)
    | (.ok applications, s) =>
      let appList :=
        String.intercalate "\n" (applications.map (fun a => "• " ++ a.name))
      (.ok
        [ .text ("Running applications:\n\n" ++ appList ++
            "\n\nYou can use any of these application names with the " ++
            "capture_application_screen tool.")], s)
  else if name = "extract_text" then
    if truthyStr args.imagePath = false then
      (.error "imagePath is required", s)
    else
      let imagePath := args.imagePath.getD ""
      let language := jsOrStr args.language "eng"
      match extractTextFromImage env (.path imagePath) language s with
      | (.error e, s) => (.error e, s)
      | (.ok extractedText, s) =>
        (.ok
          [ .text ("Text extracted successfully from: " ++ imagePath ++
              "\n\nExtracted text:\n" ++ extractedText)], s)
  else if name = "capture_screen_and_extract_text" then
    let display := args.display.getD 0
    let language := jsOrStr args.language "eng"
    let applicationName := args.applicationName
    match captureScreenAndExtractText env
        ⟨display, language, applicationName⟩ s with
    | (.error e, s) => (.error e, s)
    | (.ok result, s) =>
      (.ok
        [ .text ("Screenshot captured and text extracted successfully!" ++
            "\nPath: " ++ result.2.path ++
            (match applicationName with
             | some an =>
               if an = "" then "\nDisplay: " ++ toString display
               else "\nApplication: " ++ an
             | none => "\nDisplay: " ++ toString display) ++
            "\nLanguage: " ++ language ++ "\n\nExtracted text:\n" ++
            result.1),
          .image result.2.base64 "image/png"], s)
  else
    (.error ("Unknown tool: " ++ name), s)

/-- The full `CallToolRequestSchema` handler: the try-block `callTool` with
the catch clause that turns any thrown error into a normal response flagged
`isError` whose single text item names the tool and the failure reason. The
handler is a total function — no failure escapes to the host process. -/
def handleTool (env : Env) (name : String) (args : ToolArgs) (s : Sys) :
    ToolResponse × Sys :=
  match callTool env name args s with
  | (.ok content, s) => (⟨content, false⟩, s)
  | (.error e, s) =>
    (⟨[ContentItem.text
        ("Error executing tool \x27" ++ name ++ "\x27: " ++ e)], true⟩, s)

/-- The empty starting state of a request. -/
def sys0 : Sys := ⟨[], [], 0⟩

/-- The path of a successful capture run, if any. -/
def resultPath (r : Except String ScreenshotResult × Sys) : Option String :=
  match r.1 with
  | .ok v => some v.path
  | .error _ => none

/-- Whether a run ever invoked the full-screen capture primitive. -/
def usedFullScreen (r : Except String ScreenshotResult × Sys) : Bool :=
  r.2.events.any (fun e =>
    match e with
    | .screenshotEv _ _ => true
    | _ => false)

/-- A concrete environment in which every external collaborator succeeds
(the sharp encoders are the identity on bytes, timestamps are "T0", "T1", …). -/
def envOK : Env where
  screenshotPrim := fun d _ => .ok [d]
  sharpPng := fun b => .ok b
  sharpJpeg := fun b => .ok b
  sharpOcr := fun b => .ok b
  mkdirResult := .ok ()
  homedir := "/h"
  isoNow := fun n => "T" ++ toString n
  osaExec := fun _ => .ok "true"
  screencaptureRun := fun _ => .ok [7]
  createWorkerRes := fun _ => .ok 0
  recognize := fun _ _ => .ok " hi "
  osRead := fun _ => .ok [5]

/-- `envOK` but the OS reports an application with zero windows: the
activation/verification script succeeds and prints "false". -/
def envZeroWin : Env := { envOK with osaExec := fun _ => .ok "false" }

/-- `envOK` but the activation/verification script execution fails. -/
def envScriptFail : Env :=
  { envOK with osaExec := fun _ => .error "activation failed" }

/-- `envOK` but the OS query reports the same application name twice. -/
def envDup : Env := { envOK with osaExec := fun _ => .ok "Safari, Safari" }

/-- `envOK` but with a constant timestamp and a failing activation script
(used to exhibit a fallback-path name collision). -/
def envCollide : Env :=
  { envOK with osaExec := fun _ => .error "no app",
               isoNow := fun _ => "T" }

/-- `envOK` but recognition reports only whitespace (no text detected). -/
def envNoText : Env := { envOK with recognize := fun _ _ => .ok " " }

/-- The application-named file path `captureApplicationScreen` computes before
its capture attempt (folder, app name, first fresh timestamp, extension). -/
def appFilePath (env : Env) (name : String) (fmt : ImageFormat) (s : Sys) :
    String :=
  pathJoin (screenshotsFolderPath env)
    (name ++ "-" ++ sanitizeTimestamp (env.isoNow s.clock) ++ "." ++ fmt.ext)

/-- The state at which the fallback starts when the activation/verification
script execution fails: folder created, one timestamp consumed, the osascript
attempted. -/
def sysAfterScriptFail (_env : Env) (name : String) (s : Sys) : Sys :=
  { s with
      events := s.events ++
        [Event.mkdirEv, Event.osaExecEv (activateVerifyScript name)],
      clock := s.clock + 1 }

/-- The state at which the fallback starts when the window-scoped
`screencapture` command fails: additionally the settle delay and the capture
attempt. -/
def sysAfterCaptureFail (env : Env) (name : String) (fmt : ImageFormat)
    (s : Sys) : Sys :=
  { s with
      events := s.events ++
        [Event.mkdirEv, Event.osaExecEv (activateVerifyScript name),
         Event.settleEv, Event.screencaptureEv (appFilePath env name fmt s)],
      clock := s.clock + 1 }

/-- Number of worker terminations in a trace. -/
def countTerm (l : List Event) : Nat :=
  l.countP (fun e => e == Event.workerTerminatedEv)

/-- Number of lossy (jpeg) encodes in a trace. -/
def countJpg (l : List Event) : Nat :=
  l.countP (fun e => e == Event.encodeJpgEv)

/-- Neither end of the string is JS whitespace. -/
def noWsEnds (t : String) : Bool :=
  (t.data.head?.all (fun c => !isJsWs c)) &&
    (t.data.getLast?.all (fun c => !isJsWs c))

/-- `sub` occurs contiguously inside `s`. -/
def strHas (s sub : String) : Prop :=
  ∃ pre suf, s.data = pre ++ sub.data ++ suf

/-- The string ends with ".png". -/
def endsWithPng (p : String) : Bool :=
  decide (p.data.reverse.take 4 = ['g', 'n', 'p', '.'])

/-- `envOK` but the window-scoped `screencapture` command fails. -/
def envCapFail : Env :=
  { envOK with screencaptureRun := fun _ => .error "window capture failed" }

/-- The concrete result of a full-screen capture under `envOK`. -/
def resFull0 : ScreenshotResult :=
  ⟨"/h/Desktop/mcp-screenshots/screenshot-display-0-T0.png", "AA==", [0]⟩

/-- The concrete final state of that capture. -/
def sysFull0 : Sys :=
  ⟨[("/h/Desktop/mcp-screenshots/screenshot-display-0-T0.png", [0])],
   [Event.screenshotEv 0 .png, Event.encodePngEv, Event.mkdirEv,
    Event.writeFileEv "/h/Desktop/mcp-screenshots/screenshot-display-0-T0.png"],
   1⟩

/-- The concrete fallback result under `envScriptFail`. -/
def resFallback1 : ScreenshotResult :=
  ⟨"/h/Desktop/mcp-screenshots/screenshot-display-0-T1.png", "AA==", [0]⟩

/-- The concrete final state of that fallback run. -/
def sysFallback1 : Sys :=
  ⟨[("/h/Desktop/mcp-screenshots/screenshot-display-0-T1.png", [0])],
   [Event.mkdirEv, Event.osaExecEv (activateVerifyScript "App"),
    Event.screenshotEv 0 .png, Event.encodePngEv, Event.mkdirEv,
    Event.writeFileEv
      "/h/Desktop/mcp-screenshots/screenshot-display-0-T1.png"],
   2⟩


/-- The fallback call `captureScreen(display 0, format)` of the source indeed
coincides with the full-screen branch used in `appFallback`. -/
theorem captureScreen_none_eq_fullScreen (env : Env) (d : Nat)
    (fmt : ImageFormat) (s : Sys) :
    captureScreen env ⟨d, fmt, none⟩ s = captureFullScreen env d fmt s := rfl

/-- A head surviving `dropWhile p` does not satisfy `p`. -/
theorem head_dropWhile_not (p : Char → Bool) (l : List Char) (c : Char)
    (h : (l.dropWhile p).head? = some c) : p c = false := by
  induction l with
  | nil => simp [List.dropWhile] at h
  | cons a t ih =>
    rw [List.dropWhile_cons] at h
    by_cases hp : p a = true
    · rw [if_pos hp] at h
      exact ih h
    · rw [if_neg hp] at h
      rw [List.head?_cons] at h
      injection h with h
      subst h
      exact Bool.of_not_eq_true hp

/-- `dropWhile` only removes a prefix, so a last element is preserved. -/
theorem getLast?_dropWhile_eq (p : Char → Bool) (l : List Char) (c : Char)
    (h : (l.dropWhile p).getLast? = some c) : l.getLast? = some c := by
  induction l with
  | nil => simp [List.dropWhile] at h
  | cons a t ih =>
    rw [List.dropWhile_cons] at h
    by_cases hp : p a = true
    · rw [if_pos hp] at h
      have ht := ih h
      cases t with
      | nil => simp at ht
      | cons b t' => rw [List.getLast?_cons_cons]; exact ht
    · rw [if_neg hp] at h
      exact h

/-- The result of the modelled JS `trim` has no whitespace at either end. -/
theorem noWsEnds_jsTrim (s : String) : noWsEnds (jsTrim s) = true := by
  have hdata : (jsTrim s).data = jsTrimChars s.data := rfl
  rw [noWsEnds, hdata, Bool.and_eq_true]
  constructor
  · cases hh : (jsTrimChars s.data).head? with
    | none => rfl
    | some c =>
      have := head_dropWhile_not isJsWs (trimRightChars s.data) c hh
      simp [Option.all, this]
  · cases hh : (jsTrimChars s.data).getLast? with
    | none => rfl
    | some c =>
      have h1 : (trimRightChars s.data).getLast? = some c :=
        getLast?_dropWhile_eq isJsWs (trimRightChars s.data) c hh
      rw [trimRightChars, List.getLast?_reverse] at h1
      have := head_dropWhile_not isJsWs s.data.reverse c h1
      simp [Option.all, this]

/-- `extractCore` never terminates a worker. -/
theorem extractCore_countTerm (env : Env) (w : Nat) (b : Bytes) (s : Sys) :
    countTerm (extractCore env w b s).2.events = countTerm s.events := by
  unfold extractCore
  split
  · simp [emit, countTerm, List.countP_append, List.countP_cons]
  · split <;>
      simp [emit, countTerm, List.countP_append, List.countP_cons]

/-- The try-block body never terminates a worker. -/
theorem extractBody_countTerm (env : Env) (w : Nat) (input : ImageInput)
    (s : Sys) :
    countTerm (extractBody env w input s).2.events = countTerm s.events := by
  unfold extractBody
  cases input with
  | buffer b => exact extractCore_countTerm env w b s
  | path p =>
    dsimp only
    split
    · simp [emit, countTerm, List.countP_append, List.countP_cons]
    · rw [extractCore_countTerm]
      simp [emit, countTerm, List.countP_append, List.countP_cons]

/-- A successful try-block body returns a JS-trimmed string. -/
theorem extractBody_ok_trim (env : Env) (w : Nat) (input : ImageInput)
    (s : Sys) (t : String) (s₁ : Sys)
    (h : extractBody env w input s = (.ok t, s₁)) : ∃ raw, t = jsTrim raw := by
  have core : ∀ (b : Bytes) (s₂ : Sys),
      extractCore env w b s₂ = (.ok t, s₁) → ∃ raw, t = jsTrim raw := by
    intro b s₂ hc
    unfold extractCore at hc
    split at hc
    · simp at hc
    · split at hc
      · simp at hc
      · simp only [Prod.mk.injEq, Except.ok.injEq] at hc
        exact ⟨_, hc.1.symm⟩
  unfold extractBody at h
  cases input with
  | buffer b => exact core b _ h
  | path p =>
    dsimp only at h
    split at h
    · simp at h
    · exact core _ _ h

/-- Claim C5: for every call to `extractTextFromImage`, the tesseract worker
acquired at the start of the call is terminated exactly once before the call
returns, on every exit path (success or failure); when worker creation itself
fails, no termination happens. -/
theorem worker_released_exactly_once (env : Env) (input : ImageInput)
    (language : String) (s : Sys) :
    countTerm (extractTextFromImage env input language s).2.events =
      countTerm s.events +
        (match env.createWorkerRes language with
         | .ok _ => 1
         | .error _ => 0) := by
  unfold extractTextFromImage
  cases hw : env.createWorkerRes language with
  | error e =>
    simp [emit, countTerm, List.countP_append, List.countP_cons]
  | ok w =>
    rcases hb : extractBody env w input (emit s (Event.workerCreatedEv
      language)) with ⟨r, s₂⟩
    dsimp only
    rw [hb]
    have hct := extractBody_countTerm env w input
      (emit s (Event.workerCreatedEv language))
    rw [hb] at hct
    simp [emit, countTerm, List.countP_append, List.countP_cons] at hct ⊢
    omega

/-- Claim C6: every successful `extractTextFromImage` result is
whitespace-trimmed at both ends, and whitespace-only recognition output (the
"no text detected" condition) yields the empty string as a success, not an
error. -/
theorem extracted_text_trimmed_and_empty_ok :
    (∀ (env : Env) (input : ImageInput) (language : String) (s : Sys)
        (t : String),
      (extractTextFromImage env input language s).1 = .ok t →
      noWsEnds t = true) ∧
    (∀ (env : Env) (b : Bytes) (language : String) (s : Sys) (w : Nat)
        (pre : Bytes) (raw : String),
      env.createWorkerRes language = .ok w →
      env.sharpOcr b = .ok pre →
      env.recognize w pre = .ok raw →
      jsTrim raw = "" →
      (extractTextFromImage env (.buffer b) language s).1 = .ok "") := by
  constructor
  · intro env input language s t h
    unfold extractTextFromImage at h
    cases hw : env.createWorkerRes language with
    | error e => rw [hw] at h; simp at h
    | ok w =>
      rw [hw] at h
      dsimp only at h
      rcases hb : extractBody env w input (emit s (Event.workerCreatedEv
        language)) with ⟨r, s₂⟩
      rw [hb] at h
      dsimp only at h
      subst h
      obtain ⟨raw, hraw⟩ := extractBody_ok_trim env w input _ t s₂ hb
      rw [hraw]
      exact noWsEnds_jsTrim raw
  · intro env b language s w pre raw hw ho hr htrim
    simp [extractTextFromImage, extractBody, extractCore, hw, ho, hr, htrim]

/-- Witness for C6 at concrete runs: a successful extraction is trimmed, and
a whitespace-only recognition result comes back as the empty-string success. -/
theorem extracted_text_trimmed_and_empty_ok_witness :
    noWsEnds "hi" = true ∧
      (extractTextFromImage envNoText (.buffer [1]) "eng" sys0).1 =
        .ok "" :=
  ⟨extracted_text_trimmed_and_empty_ok.1 envOK (.buffer [1]) "eng" sys0 "hi"
      rfl,
   extracted_text_trimmed_and_empty_ok.2 envNoText [1] "eng" sys0 0 [1] " "
      rfl rfl rfl (by decide)⟩

/-- A successful `appFallback` is a successful full-screen capture of
display 0. -/
theorem appFallback_ok (env : Env) (fmt : ImageFormat) (s : Sys)
    (r : ScreenshotResult) (s' : Sys)
    (h : appFallback env fmt s = (.ok r, s')) :
    captureFullScreen env 0 fmt s = (.ok r, s') := by
  unfold appFallback at h
  split at h
  · rename_i heq
    simp only [Prod.mk.injEq, Except.ok.injEq] at h
    rw [heq, h.1, h.2]
  · simp at h

/-- A successful full-screen capture wrote the returned buffer at the
returned path and returned its base64 encoding. -/
theorem captureFullScreen_ok_inv (env : Env) (d : Nat) (fmt : ImageFormat)
    (s : Sys) (r : ScreenshotResult) (s' : Sys)
    (h : captureFullScreen env d fmt s = (.ok r, s')) :
    List.lookup r.path s'.fs = some r.buffer ∧
      r.base64 = String.mk (base64Encode r.buffer) := by
  unfold captureFullScreen at h
  dsimp only at h
  split at h
  · simp at h
  · split at h
    · simp at h
    · split at h
      · simp at h
      · simp only [Prod.mk.injEq, Except.ok.injEq] at h
        obtain ⟨h1, h2⟩ := h
        subst h1
        subst h2
        refine ⟨?_, rfl⟩
        simp [fsWriteFile, List.lookup]

/-- A successful application-targeted capture wrote the returned buffer at
the returned path and returned its base64 encoding. -/
theorem captureApplicationScreen_ok_inv (env : Env) (name : String)
    (fmt : ImageFormat) (s : Sys) (r : ScreenshotResult) (s' : Sys)
    (h : captureApplicationScreen env name fmt s = (.ok r, s')) :
    List.lookup r.path s'.fs = some r.buffer ∧
      r.base64 = String.mk (base64Encode r.buffer) := by
  unfold captureApplicationScreen at h
  split at h
  · simp at h
  · dsimp only at h
    split at h
    · exact captureFullScreen_ok_inv env 0 fmt _ r s' (appFallback_ok _ _ _ _ _ h)
    · split at h
      · exact captureFullScreen_ok_inv env 0 fmt _ r s' (appFallback_ok _ _ _ _ _ h)
      · split at h
        · simp at h
        · split at h
          · simp at h
          · simp only [Prod.mk.injEq, Except.ok.injEq] at h
            obtain ⟨h1, h2⟩ := h
            subst h1
            subst h2
            refine ⟨?_, rfl⟩
            simp [fsWriteFile, List.lookup]

/-- Claim C2: every successful capture (full-screen or application-targeted)
returns a result whose path maps, in the final file system, to exactly the
returned buffer (hence equal byte length), and whose base64 string is the
base64 encoding of that same buffer. -/
theorem captureResult_file_and_base64_consistent :
    (∀ (env : Env) (opts : CaptureOptions) (s : Sys) (r : ScreenshotResult)
        (s' : Sys),
      captureScreen env opts s = (.ok r, s') →
      List.lookup r.path s'.fs = some r.buffer ∧
        r.base64 = String.mk (base64Encode r.buffer)) ∧
    (∀ (env : Env) (name : String) (fmt : ImageFormat) (s : Sys)
        (r : ScreenshotResult) (s' : Sys),
      captureApplicationScreen env name fmt s = (.ok r, s') →
      List.lookup r.path s'.fs = some r.buffer ∧
        r.base64 = String.mk (base64Encode r.buffer)) := by
  constructor
  · intro env opts s r s' h
    unfold captureScreen at h
    split at h
    · split at h
      · exact captureFullScreen_ok_inv env opts.display opts.fmt s r s' h
      · exact captureApplicationScreen_ok_inv env _ opts.fmt s r s' h
    · exact captureFullScreen_ok_inv env opts.display opts.fmt s r s' h
  · intro env name fmt s r s' h
    exact captureApplicationScreen_ok_inv env name fmt s r s' h

/-- Witness for C2 at a concrete successful capture. -/
theorem captureResult_file_and_base64_consistent_witness :
    List.lookup resFull0.path sysFull0.fs = some resFull0.buffer ∧
      resFull0.base64 = String.mk (base64Encode resFull0.buffer) :=
  captureResult_file_and_base64_consistent.1 envOK ⟨0, .png, none⟩ sys0
    resFull0 sysFull0 rfl

/-- When the activation/verification script execution fails, the run is the
fallback from the state after folder creation, one timestamp and the script
attempt. -/
theorem capApp_script_error (env : Env) (name : String) (fmt : ImageFormat)
    (s : Sys) (msg : String)
    (h1 : env.mkdirResult = .ok ())
    (h2 : env.osaExec (activateVerifyScript name) = .error msg) :
    captureApplicationScreen env name fmt s =
      appFallback env fmt (sysAfterScriptFail env name s) := by
  rcases s with ⟨fs, ev, ck⟩
  simp only [captureApplicationScreen, createScreenshotsFolder, h1, h2, emit,
    freshTimestamp, sysAfterScriptFail]
  simp [List.append_assoc]

/-- When the script succeeds but the window-scoped `screencapture` command
fails, the run is the fallback from the state that additionally has the
settle delay and the capture attempt. -/
theorem capApp_capture_error (env : Env) (name : String) (fmt : ImageFormat)
    (s : Sys) (out msg : String)
    (h1 : env.mkdirResult = .ok ())
    (h2 : env.osaExec (activateVerifyScript name) = .ok out)
    (h3 : env.screencaptureRun (appFilePath env name fmt s) = .error msg) :
    captureApplicationScreen env name fmt s =
      appFallback env fmt (sysAfterCaptureFail env name fmt s) := by
  rcases s with ⟨fs, ev, ck⟩
  simp only [appFilePath] at h3
  simp only [captureApplicationScreen, createScreenshotsFolder, h1, h2, h3,
    emit, freshTimestamp, sysAfterCaptureFail, appFilePath]
  simp [List.append_assoc]

/-- Claim C1 (amended): the silent full-screen fallback of
`captureApplicationScreen` is taken exactly when the combined
activation-and-verification osascript *execution* fails or the window-scoped
`screencapture` command fails; the run then returns the result of a
full-screen capture of display 0 in the originally requested format, and an
error surfaces only if that fallback itself fails (wrapped by the outer
catch). A zero-window report does not fail the script execution and so does
not trigger the fallback (see the counterexample). -/
theorem captureApplicationScreen_fallback_triggers :
    (∀ (env : Env) (name : String) (fmt : ImageFormat) (s : Sys)
        (msg : String),
      env.mkdirResult = .ok () →
      env.osaExec (activateVerifyScript name) = .error msg →
      captureApplicationScreen env name fmt s =
        appFallback env fmt (sysAfterScriptFail env name s)) ∧
    (∀ (env : Env) (name : String) (fmt : ImageFormat) (s : Sys)
        (out msg : String),
      env.mkdirResult = .ok () →
      env.osaExec (activateVerifyScript name) = .ok out →
      env.screencaptureRun (appFilePath env name fmt s) = .error msg →
      captureApplicationScreen env name fmt s =
        appFallback env fmt (sysAfterCaptureFail env name fmt s)) :=
  ⟨fun env name fmt s msg h1 h2 => capApp_script_error env name fmt s msg h1 h2,
   fun env name fmt s out msg h1 h2 h3 =>
     capApp_capture_error env name fmt s out msg h1 h2 h3⟩

/-- Witness for C1: both fallback triggers exercised at concrete inputs. -/
theorem captureApplicationScreen_fallback_triggers_witness :
    captureApplicationScreen envScriptFail "App" .png sys0 =
        appFallback envScriptFail .png
          (sysAfterScriptFail envScriptFail "App" sys0) ∧
      captureApplicationScreen envCapFail "App" .png sys0 =
        appFallback envCapFail .png
          (sysAfterCaptureFail envCapFail "App" .png sys0) :=
  ⟨captureApplicationScreen_fallback_triggers.1 envScriptFail "App" .png sys0
      "activation failed" rfl rfl,
   captureApplicationScreen_fallback_triggers.2 envCapFail "App" .png sys0
      "true" "window capture failed" rfl rfl rfl⟩

/-- Counterexample to claim C1 as stated: when the OS reports *zero windows*
(the verification script succeeds and prints "false"), no fallback happens —
the full-screen primitive is never invoked and the app-named window capture
is returned, not a full-screen capture of display 0. -/
theorem zeroWindows_no_fallback_cex :
    resultPath (captureApplicationScreen envZeroWin "MyApp" .png sys0) =
        some "/h/Desktop/mcp-screenshots/MyApp-T0.png" ∧
      usedFullScreen (captureApplicationScreen envZeroWin "MyApp" .png sys0) =
        false := by
  decide

/-- The path of a successful full-screen capture is the display-indexed
timestamped name under the screenshots folder. -/
theorem captureFullScreen_ok_path (env : Env) (d : Nat) (fmt : ImageFormat)
    (s : Sys) (r : ScreenshotResult) (s' : Sys)
    (h : captureFullScreen env d fmt s = (.ok r, s')) :
    r.path = pathJoin (screenshotsFolderPath env)
      ("screenshot-display-" ++ toString d ++ "-" ++
        sanitizeTimestamp (env.isoNow s.clock) ++ "." ++ fmt.ext) := by
  cases fmt with
  | png =>
    unfold captureFullScreen createScreenshotsFolder encodeFormat at h
    dsimp only [emit, freshTimestamp] at h
    cases hp : env.screenshotPrim d ImageFormat.png with
    | error e => rw [hp] at h; simp at h
    | ok b =>
      rw [hp] at h
      dsimp only at h
      cases hs : env.sharpPng b with
      | error e => rw [hs] at h; simp at h
      | ok pb =>
        rw [hs] at h
        dsimp only at h
        cases hm : env.mkdirResult with
        | error e => rw [hm] at h; simp at h
        | ok u =>
          rw [hm] at h
          dsimp only at h
          simp only [Prod.mk.injEq, Except.ok.injEq] at h
          rw [← h.1]
  | jpg =>
    unfold captureFullScreen createScreenshotsFolder encodeFormat at h
    dsimp only [emit, freshTimestamp] at h
    cases hp : env.screenshotPrim d ImageFormat.jpg with
    | error e => rw [hp] at h; simp at h
    | ok b =>
      rw [hp] at h
      dsimp only at h
      cases hs : env.sharpJpeg b with
      | error e => rw [hs] at h; simp at h
      | ok pb =>
        rw [hs] at h
        dsimp only at h
        cases hm : env.mkdirResult with
        | error e => rw [hm] at h; simp at h
        | ok u =>
          rw [hm] at h
          dsimp only at h
          simp only [Prod.mk.injEq, Except.ok.injEq] at h
          rw [← h.1]

/-- Claim C10 (amended): whenever the fallback is taken (failing script
execution or failing window capture) and succeeds, the returned path is the
full-screen name `screenshot-display-0-<timestamp>.<ext>` under the
screenshots folder, built from the second timestamp of the run, with the
application name never entering its construction (though the resulting
string can coincide with an adversarial application's own name, see the
counterexample). -/
theorem fallback_path_uses_display0_naming :
    (∀ (env : Env) (name : String) (fmt : ImageFormat) (s : Sys)
        (msg : String) (r : ScreenshotResult) (s₂ : Sys),
      env.mkdirResult = .ok () →
      env.osaExec (activateVerifyScript name) = .error msg →
      captureApplicationScreen env name fmt s = (.ok r, s₂) →
      r.path = pathJoin (screenshotsFolderPath env)
        ("screenshot-display-" ++ toString (0:Nat) ++ "-" ++
          sanitizeTimestamp (env.isoNow (s.clock + 1)) ++ "." ++ fmt.ext)) ∧
    (∀ (env : Env) (name : String) (fmt : ImageFormat) (s : Sys)
        (out msg : String) (r : ScreenshotResult) (s₂ : Sys),
      env.mkdirResult = .ok () →
      env.osaExec (activateVerifyScript name) = .ok out →
      env.screencaptureRun (appFilePath env name fmt s) = .error msg →
      captureApplicationScreen env name fmt s = (.ok r, s₂) →
      r.path = pathJoin (screenshotsFolderPath env)
        ("screenshot-display-" ++ toString (0:Nat) ++ "-" ++
          sanitizeTimestamp (env.isoNow (s.clock + 1)) ++ "." ++ fmt.ext)) := by
  constructor
  · intro env name fmt s msg r s₂ h1 h2 h
    rw [capApp_script_error env name fmt s msg h1 h2] at h
    have hfull := appFallback_ok env fmt _ r s₂ h
    have := captureFullScreen_ok_path env 0 fmt _ r s₂ hfull
    simpa [sysAfterScriptFail] using this
  · intro env name fmt s out msg r s₂ h1 h2 h3 h
    rw [capApp_capture_error env name fmt s out msg h1 h2 h3] at h
    have hfull := appFallback_ok env fmt _ r s₂ h
    have := captureFullScreen_ok_path env 0 fmt _ r s₂ hfull
    simpa [sysAfterCaptureFail] using this

/-- Witness for C10 at a concrete fallback run. -/
theorem fallback_path_uses_display0_naming_witness :
    resFallback1.path = pathJoin (screenshotsFolderPath envScriptFail)
      ("screenshot-display-" ++ toString (0:Nat) ++ "-" ++
        sanitizeTimestamp (envScriptFail.isoNow (sys0.clock + 1)) ++ "." ++
        ImageFormat.png.ext) :=
  fallback_path_uses_display0_naming.1 envScriptFail "App" .png sys0
    "activation failed" resFallback1 sysFallback1 rfl rfl rfl

/-- Counterexample to claim C10 as stated: for an application literally named
"screenshot-display-0" and coinciding timestamps, the fallback *is* taken
(the full-screen primitive runs) yet the returned path equals the
application-named path computed before the fallback — so the returned path
does contain the application name. -/
theorem fallback_path_collision_cex :
    resultPath
        (captureApplicationScreen envCollide "screenshot-display-0" .png
          sys0) =
        some (appFilePath envCollide "screenshot-display-0" .png sys0) ∧
      usedFullScreen
        (captureApplicationScreen envCollide "screenshot-display-0" .png
          sys0) = true := by
  decide

/-- Claim C3 (amended): a present *non-empty* applicationName makes
`captureScreen` delegate to the application-targeted path; the display index
does not occur on that path at all (the right-hand side does not mention
it), so it is neither used nor validated. An empty-string applicationName is
falsy in JS and is treated as absent (see the counterexample). -/
theorem applicationName_nonempty_precedence (env : Env) (d : Nat)
    (fmt : ImageFormat) (name : String) (s : Sys) (h : name ≠ "") :
    captureScreen env ⟨d, fmt, some name⟩ s =
      captureApplicationScreen env name fmt s := by
  simp [captureScreen, h]

/-- Witness for C3 at a concrete non-empty application name. -/
theorem applicationName_nonempty_precedence_witness :
    ("App" ≠ "") ∧
      captureScreen envOK ⟨5, .png, some "App"⟩ sys0 =
        captureApplicationScreen envOK "App" .png sys0 :=
  ⟨by decide,
   applicationName_nonempty_precedence envOK 5 .png "App" sys0 (by decide)⟩

/-- Counterexample to C3 as stated: with the present-but-empty application
name, the full-screen path runs and the display index does influence the
result. -/
theorem emptyApplicationName_uses_display_cex :
    resultPath (captureScreen envOK ⟨3, .png, some ""⟩ sys0) ≠
      resultPath (captureScreen envOK ⟨4, .png, some ""⟩ sys0) := by
  decide

/-- Claim C7 (amended): `getRunningApplications` returns one descriptor per
*name token* reported by the OS query (duplicates preserved, no
deduplication), and the `pid` fields are exactly the positions 0, 1, … in
the returned sequence, not real process identifiers. -/
theorem listApplications_length_and_ordinals (env : Env) (s : Sys)
    (stdout : String) (l : List ApplicationInfo)
    (h1 : env.osaExec listAppsScript = .ok stdout)
    (h2 : (getRunningApplications env s).1 = .ok l) :
    l.map ApplicationInfo.name = parseAppNames stdout ∧
      l.map ApplicationInfo.pid = List.range (parseAppNames stdout).length := by
  unfold getRunningApplications at h2
  rw [h1] at h2
  dsimp only at h2
  simp only [Except.ok.injEq] at h2
  subst h2
  constructor
  · rw [List.map_map]
    have hc : (ApplicationInfo.name ∘ fun p : Nat × String => (⟨p.2, p.1⟩ :
        ApplicationInfo)) = Prod.snd := rfl
    rw [hc, List.enum_map_snd]
  · rw [List.map_map]
    have hc : (ApplicationInfo.pid ∘ fun p : Nat × String => (⟨p.2, p.1⟩ :
        ApplicationInfo)) = Prod.fst := rfl
    rw [hc, List.enum_map_fst]

/-- Witness for C7 at a concrete OS report with a duplicated name. -/
theorem listApplications_length_and_ordinals_witness :
    ([⟨"Safari", 0⟩, ⟨"Safari", 1⟩] : List ApplicationInfo).map
        ApplicationInfo.name = parseAppNames "Safari, Safari" ∧
      ([⟨"Safari", 0⟩, ⟨"Safari", 1⟩] : List ApplicationInfo).map
        ApplicationInfo.pid =
        List.range (parseAppNames "Safari, Safari").length :=
  listApplications_length_and_ordinals envDup sys0 "Safari, Safari"
    [⟨"Safari", 0⟩, ⟨"Safari", 1⟩] rfl rfl

/-- Counterexample to C7 as stated: when the OS query reports the same name
twice, the returned sequence has two entries but the number of *distinct*
reported names is one. -/
theorem duplicate_names_counted_cex :
    ((getRunningApplications envDup sys0).1.toOption.map List.length) ≠
      some ((parseAppNames "Safari, Safari").dedup.length) := by
  decide

/-- Data of an appended string is the appended data. -/
theorem strData_append (a b : String) : (a ++ b).data = a.data ++ b.data :=
  rfl

/-- Claim C8: a `capture_application_screen` invocation with a missing
applicationName, and an `extract_text` invocation with a missing imagePath,
fail with the validation error immediately: the returned state is *exactly*
the starting state (no directory creation, capture, file read or worker
acquisition was attempted — the trace, file system and clock are
untouched). -/
theorem missing_required_param_validation :
    (∀ (env : Env) (args : ToolArgs) (s : Sys),
      args.applicationName = none →
      handleTool env "capture_application_screen" args s =
        (⟨[ContentItem.text ("Error executing tool \x27" ++
            "capture_application_screen" ++ "\x27: " ++
            "applicationName is required")], true⟩, s)) ∧
    (∀ (env : Env) (args : ToolArgs) (s : Sys),
      args.imagePath = none →
      handleTool env "extract_text" args s =
        (⟨[ContentItem.text ("Error executing tool \x27" ++ "extract_text" ++
            "\x27: " ++ "imagePath is required")], true⟩, s)) := by
  constructor
  · intro env args s h
    simp [handleTool, callTool, truthyStr, h]
  · intro env args s h
    simp [handleTool, callTool, truthyStr, h]

/-- Witness for C8 at concrete argument records with the fields missing. -/
theorem missing_required_param_validation_witness :
    handleTool envOK "capture_application_screen"
        ⟨some 2, some .jpg, none, none, none⟩ sys0 =
      (⟨[ContentItem.text ("Error executing tool \x27" ++
          "capture_application_screen" ++ "\x27: " ++
          "applicationName is required")], true⟩, sys0) ∧
    handleTool envOK "extract_text" ⟨none, none, none, none, some "eng"⟩
        sys0 =
      (⟨[ContentItem.text ("Error executing tool \x27" ++ "extract_text" ++
          "\x27: " ++ "imagePath is required")], true⟩, sys0) :=
  ⟨missing_required_param_validation.1 envOK
      ⟨some 2, some .jpg, none, none, none⟩ sys0 rfl,
   missing_required_param_validation.2 envOK
      ⟨none, none, none, none, some "eng"⟩ sys0 rfl⟩

/-- Claim C9: whenever the tool switch throws (any tool, any error), the
handler returns a normal response — a total function value, nothing escapes
to the host — flagged as an error, whose single text item contains both the
tool name and the underlying failure reason as substrings. -/
theorem tool_failure_wrapped_response (env : Env) (name : String)
    (args : ToolArgs) (s : Sys) (e : String) (s' : Sys)
    (h : callTool env name args s = (.error e, s')) :
    handleTool env name args s =
      (⟨[ContentItem.text ("Error executing tool \x27" ++ name ++
          "\x27: " ++ e)], true⟩, s') ∧
    strHas ("Error executing tool \x27" ++ name ++ "\x27: " ++ e) name ∧
    strHas ("Error executing tool \x27" ++ name ++ "\x27: " ++ e) e := by
  refine ⟨?_, ?_, ?_⟩
  · unfold handleTool
    rw [h]
  · exact ⟨"Error executing tool \x27".data, ("\x27: " ++ e).data,
      by simp [strData_append, List.append_assoc]⟩
  · exact ⟨("Error executing tool \x27" ++ name ++ "\x27: ").data, [],
      by simp [strData_append, List.append_assoc]⟩

/-- Witness for C9 at a concrete failing invocation (unknown tool name). -/
theorem tool_failure_wrapped_response_witness :
    handleTool envOK "bogus" ⟨none, none, none, none, none⟩ sys0 =
      (⟨[ContentItem.text ("Error executing tool \x27" ++ "bogus" ++
          "\x27: " ++ "Unknown tool: bogus")], true⟩, sys0) ∧
    strHas ("Error executing tool \x27" ++ "bogus" ++ "\x27: " ++
      "Unknown tool: bogus") "bogus" ∧
    strHas ("Error executing tool \x27" ++ "bogus" ++ "\x27: " ++
      "Unknown tool: bogus") "Unknown tool: bogus" :=
  tool_failure_wrapped_response envOK "bogus" ⟨none, none, none, none, none⟩
    sys0 "Unknown tool: bogus" sys0 rfl

/-- Encoding with the png format is the sharp png encoder plus its event. -/
theorem encodeFormat_png (env : Env) (b : Bytes) (s : Sys) :
    encodeFormat env .png b s = (env.sharpPng b, emit s Event.encodePngEv) :=
  rfl

/-- A full-screen capture with the png format never performs a jpeg encode. -/
theorem countJpg_captureFullScreen_png (env : Env) (d : Nat) (s : Sys) :
    countJpg (captureFullScreen env d .png s).2.events = countJpg s.events := by
  unfold captureFullScreen createScreenshotsFolder
  simp only [encodeFormat_png]
  split
  · simp [emit, countJpg, List.countP_append, List.countP_cons]
  · split
    · rename_i heq
      obtain ⟨h1, h2⟩ := Prod.mk.inj heq
      subst h2
      simp [emit, countJpg, List.countP_append, List.countP_cons]
    · rename_i heq
      obtain ⟨h1, h2⟩ := Prod.mk.inj heq
      subst h2
      cases hm : env.mkdirResult with
      | error e =>
        simp [emit, countJpg, List.countP_append, List.countP_cons]
      | ok u =>
        simp [emit, fsWriteFile, freshTimestamp, countJpg,
          List.countP_append, List.countP_cons]

/-- The fallback with the png format never performs a jpeg encode. -/
theorem countJpg_appFallback_png (env : Env) (s : Sys) :
    countJpg (appFallback env .png s).2.events = countJpg s.events := by
  unfold appFallback
  have h := countJpg_captureFullScreen_png env 0 s
  split
  · rename_i r s' heq
    rw [heq] at h
    exact h
  · rename_i e s' heq
    rw [heq] at h
    exact h

/-- An application-targeted capture with the png format never performs a
jpeg encode, on any of its paths. -/
theorem countJpg_captureApplicationScreen_png (env : Env) (name : String)
    (s : Sys) :
    countJpg (captureApplicationScreen env name .png s).2.events =
      countJpg s.events := by
  unfold captureApplicationScreen createScreenshotsFolder
  cases hm : env.mkdirResult with
  | error e =>
    simp [emit, countJpg, List.countP_append, List.countP_cons]
  | ok u =>
    dsimp only
    simp only [encodeFormat_png]
    split
    · rw [countJpg_appFallback_png]
      simp [emit, freshTimestamp, countJpg, List.countP_append,
        List.countP_cons]
    · split
      · rw [countJpg_appFallback_png]
        simp [emit, freshTimestamp, countJpg, List.countP_append,
          List.countP_cons]
      · split
        · simp [emit, fsPut, freshTimestamp, countJpg, List.countP_append,
            List.countP_cons]
        · split
          · rename_i heq
            obtain ⟨h1, h2⟩ := Prod.mk.inj heq
            subst h2
            simp [emit, fsPut, freshTimestamp, countJpg, List.countP_append,
              List.countP_cons]
          · rename_i heq
            obtain ⟨h1, h2⟩ := Prod.mk.inj heq
            subst h2
            simp [emit, fsPut, fsWriteFile, freshTimestamp, countJpg,
              List.countP_append, List.countP_cons]

/-- A `captureScreen` call with the png format never performs a jpeg
encode. -/
theorem countJpg_captureScreen_png (env : Env) (d : Nat)
    (appName : Option String) (s : Sys) :
    countJpg (captureScreen env ⟨d, .png, appName⟩ s).2.events =
      countJpg s.events := by
  unfold captureScreen
  cases appName with
  | none => exact countJpg_captureFullScreen_png env d s
  | some nm =>
    dsimp only
    by_cases h : nm = ""
    · rw [if_pos h]
      exact countJpg_captureFullScreen_png env d s
    · rw [if_neg h]
      exact countJpg_captureApplicationScreen_png env nm s

/-- OCR preprocessing and recognition never perform a jpeg encode. -/
theorem countJpg_extractCore (env : Env) (w : Nat) (b : Bytes) (s : Sys) :
    countJpg (extractCore env w b s).2.events = countJpg s.events := by
  unfold extractCore
  split
  · simp [emit, countJpg, List.countP_append, List.countP_cons]
  · split <;>
      simp [emit, countJpg, List.countP_append, List.countP_cons]

/-- The OCR try-block body never performs a jpeg encode. -/
theorem countJpg_extractBody (env : Env) (w : Nat) (input : ImageInput)
    (s : Sys) :
    countJpg (extractBody env w input s).2.events = countJpg s.events := by
  unfold extractBody
  cases input with
  | buffer b => exact countJpg_extractCore env w b s
  | path p =>
    dsimp only
    split
    · simp [emit, countJpg, List.countP_append, List.countP_cons]
    · rw [countJpg_extractCore]
      simp [emit, countJpg, List.countP_append, List.countP_cons]

/-- `extractTextFromImage` never performs a jpeg encode. -/
theorem countJpg_extractText (env : Env) (input : ImageInput)
    (language : String) (s : Sys) :
    countJpg (extractTextFromImage env input language s).2.events =
      countJpg s.events := by
  unfold extractTextFromImage
  cases hw : env.createWorkerRes language with
  | error e => simp [emit, countJpg, List.countP_append, List.countP_cons]
  | ok w =>
    rcases hb : extractBody env w input (emit s (Event.workerCreatedEv
      language)) with ⟨r, s₂⟩
    dsimp only
    rw [hb]
    have hct := countJpg_extractBody env w input
      (emit s (Event.workerCreatedEv language))
    rw [hb] at hct
    simp [emit, countJpg, List.countP_append, List.countP_cons] at hct ⊢
    omega

/-- A joined path whose filename ends in ".png" ends with ".png". -/
theorem endsWithPng_pathJoin (a q : String) :
    endsWithPng (pathJoin a (q ++ "." ++ "png")) = true := by
  have hd : (pathJoin a (q ++ "." ++ "png")).data =
      (a.data ++ '/' :: q.data) ++ ['.', 'p', 'n', 'g'] := by
    simp [pathJoin, strData_append, List.append_assoc]
  unfold endsWithPng
  rw [hd, List.reverse_append]
  rw [show (['.', 'p', 'n', 'g'] : List Char).reverse = ['g', 'n', 'p', '.']
    from rfl]
  rw [show (4 : Nat) = (['g', 'n', 'p', '.'] : List Char).length from rfl,
    List.take_left]
  decide

/-- Every successful png application-targeted capture returns a path of the
shape `folder/<stem>.png`. -/
theorem captureApplicationScreen_png_path (env : Env) (name : String)
    (s : Sys) (r : ScreenshotResult) (s' : Sys)
    (h : captureApplicationScreen env name .png s = (.ok r, s')) :
    ∃ a q, r.path = pathJoin a (q ++ "." ++ "png") := by
  unfold captureApplicationScreen at h
  split at h
  · simp at h
  · dsimp only at h
    split at h
    · have hp := captureFullScreen_ok_path env 0 .png _ r s'
        (appFallback_ok _ _ _ _ _ h)
      exact ⟨_, _, hp⟩
    · split at h
      · have hp := captureFullScreen_ok_path env 0 .png _ r s'
          (appFallback_ok _ _ _ _ _ h)
        exact ⟨_, _, hp⟩
      · split at h
        · simp at h
        · split at h
          · simp at h
          · simp only [Prod.mk.injEq, Except.ok.injEq] at h
            rw [show ImageFormat.png.ext = "png" from rfl] at h
            exact ⟨_, _, congrArg ScreenshotResult.path h.1.symm⟩

/-- Every successful png `captureScreen` returns a path of the shape
`folder/<stem>.png`. -/
theorem captureScreen_png_path (env : Env) (d : Nat)
    (appName : Option String) (s : Sys) (r : ScreenshotResult) (s' : Sys)
    (h : captureScreen env ⟨d, .png, appName⟩ s = (.ok r, s')) :
    ∃ a q, r.path = pathJoin a (q ++ "." ++ "png") := by
  unfold captureScreen at h
  cases appName with
  | none => exact ⟨_, _, captureFullScreen_ok_path env d .png s r s' h⟩
  | some nm =>
    dsimp only at h
    by_cases hnm : nm = ""
    · rw [if_pos hnm] at h
      exact ⟨_, _, captureFullScreen_ok_path env d .png s r s' h⟩
    · rw [if_neg hnm] at h
      exact captureApplicationScreen_png_path env nm s r s' h

/-- Claim C4: `captureScreenAndExtractText` always captures with the
lossless png format: no run of the combined operation (on any path,
including application-targeted capture and its fallback) ever invokes the
lossy jpeg encoder, and every successful run returns the screenshot of a
png-format `captureScreen` call whose persisted path ends in ".png"; the
buffer handed to recognition is that same screenshot's buffer by
construction of the operation. -/
theorem combined_capture_forces_png :
    (∀ (env : Env) (opts : CombinedOptions) (s : Sys),
      countJpg (captureScreenAndExtractText env opts s).2.events =
        countJpg s.events) ∧
    (∀ (env : Env) (opts : CombinedOptions) (s : Sys) (t : String)
        (shot : ScreenshotResult),
      (captureScreenAndExtractText env opts s).1 = .ok (t, shot) →
      (captureScreen env ⟨opts.display, .png, opts.applicationName⟩ s).1 =
          .ok shot ∧
        endsWithPng shot.path = true) := by
  constructor
  · intro env opts s
    unfold captureScreenAndExtractText
    rcases hc : captureScreen env ⟨opts.display, .png, opts.applicationName⟩
      s with ⟨cr, s₁⟩
    have h1 := countJpg_captureScreen_png env opts.display
      opts.applicationName s
    rw [hc] at h1
    dsimp only at h1
    cases cr with
    | error e => exact h1
    | ok shot =>
      dsimp only
      rcases he : extractTextFromImage env (.buffer shot.buffer)
        opts.language s₁ with ⟨er, s₂⟩
      have h2 := countJpg_extractText env (.buffer shot.buffer)
        opts.language s₁
      rw [he] at h2
      dsimp only at h2
      cases er with
      | error e => exact h2.trans h1
      | ok txt => exact h2.trans h1
  · intro env opts s t shot h
    unfold captureScreenAndExtractText at h
    rcases hc : captureScreen env ⟨opts.display, .png, opts.applicationName⟩
      s with ⟨cr, s₁⟩
    rw [hc] at h
    cases cr with
    | error e => simp at h
    | ok shot₀ =>
      dsimp only at h
      rcases he : extractTextFromImage env (.buffer shot₀.buffer)
        opts.language s₁ with ⟨er, s₂⟩
      rw [he] at h
      cases er with
      | error e => simp at h
      | ok txt =>
        dsimp only at h
        simp only [Except.ok.injEq, Prod.mk.injEq] at h
        obtain ⟨ht, hs⟩ := h
        subst hs
        constructor
        · rfl
        · obtain ⟨a, q, hpq⟩ :=
            captureScreen_png_path env opts.display opts.applicationName s
              shot₀ s₁ hc
          rw [hpq]
          exact endsWithPng_pathJoin a q

/-- Witness for C4 at a concrete successful combined run. -/
theorem combined_capture_forces_png_witness :
    (captureScreen envOK ⟨0, .png, none⟩ sys0).1 = .ok resFull0 ∧
      endsWithPng resFull0.path = true :=
  combined_capture_forces_png.2 envOK ⟨0, "eng", none⟩ sys0 "hi" resFull0 rfl
